import Mathlib

/-!
Shallow embedding of the ERPlora inventory module (src/ai_tools.py,
src/apps.py, src/models.py, src/management/commands/populate_ean13.py)
and proofs about the stock-adjustment, low-stock-alert, slug and EAN-13
logic.  Strings are modelled as `List Char`; Django model rows as Lean
structures; the database as lists of rows threaded through the
operations; machine integers as `Int`/`Nat` (Python ints are unbounded).
-/

namespace Inventory

/-- ASCII lower-casing of one character, the model of case-insensitive
(`__iexact` / `__icontains`) comparisons. -/
def lowerChar (c : Char) : Char :=
  if 'A' ≤ c ∧ c ≤ 'Z' then Char.ofNat (c.toNat + 32) else c

/-- Lower-case a whole string (list of characters). -/
def lower (s : List Char) : List Char := s.map lowerChar

/-- ASCII upper-casing of one character (used by Python str.capitalize). -/
def upperChar (c : Char) : Char :=
  if 'a' ≤ c ∧ c ≤ 'z' then Char.ofNat (c.toNat - 32) else c

/-- Python str.capitalize(): first character upper-cased, the rest
lower-cased.  Used by Category.save and Product.save in src/models.py. -/
def pyCapitalize : List Char → List Char
  | [] => []
  | c :: rest => upperChar c :: rest.map lowerChar

/-- Python str.strip(): drop whitespace from both ends. -/
def pyStrip (s : List Char) : List Char :=
  ((s.dropWhile Char.isWhitespace).reverse.dropWhile Char.isWhitespace).reverse

/-- Decidable contiguous-substring test, the model of Python substring
matching and of the Django `name__icontains` lookup: `needle` occurs at
some offset of `hay`. -/
def containsSub (needle hay : List Char) : Bool :=
  (List.range (hay.length + 1)).any (fun i => (hay.drop i).take needle.length == needle)

/-- Product type choices of src/models.py (`physical` | `service`). -/
inductive ProductType where
  | physical
  | service
deriving DecidableEq, Repr

/-- The Product row of src/models.py.  `price` and `cost` are Decimal
columns modelled as integer cents; `categories` is the many-to-many
relation modelled as the list of related category ids. -/
structure Product where
  id : Nat
  name : List Char
  sku : List Char
  ean13 : List Char
  description : List Char
  product_type : ProductType
  price : Int
  cost : Int
  stock : Int
  low_stock_threshold : Nat
  categories : List Nat
  is_active : Bool
deriving DecidableEq, Repr

/-- Movement type choices of StockMovement in src/models.py. -/
inductive MovementType where
  | stockIn
  | stockOut
  | adjustment
  | transfer
  | returned
  | sale
deriving DecidableEq, Repr

/-- The StockMovement audit row of src/models.py (warehouse and notes
omitted: the adjustment paths under study never set them). -/
structure StockMovement where
  product_id : Nat
  movement_type : MovementType
  quantity : Int
  reference : List Char
deriving DecidableEq, Repr

/-- One recorded invocation of the hook registry
(`hooks.do_action(action, ...)` in src/apps.py). -/
structure HookCall where
  action : List Char
  product_id : Nat
  old_quantity : Int
  new_quantity : Int
  reason : List Char
  user : Option Nat
deriving DecidableEq, Repr

/-- Database-plus-environment state threaded through the operations:
the product table, the stock-movement audit table, the tenant's
InventorySettings.allow_negative_stock flag (src/models.py), and an
instrumentation trace of every hook-registry invocation performed. -/
structure InvState where
  products : List Product
  movements : List StockMovement
  allow_negative_stock : Bool
  hook_calls : List HookCall
deriving DecidableEq, Repr

/-- Stock of the product with the given id, if present. -/
def stockOf (s : InvState) (pid : Nat) : Option Int :=
  (s.products.find? (fun p => p.id == pid)).map (fun p => p.stock)

/-- Default reference used by AdjustStock.execute when no reason is
passed (`args.get('reason', 'AI assistant adjustment')`). -/
def defaultAdjustReason : List Char := "AI assistant adjustment".data

/-- Return payload of AdjustStock.execute. -/
structure AdjustResult where
  product_name : List Char
  new_stock : Int
  adjusted_by : Int
deriving DecidableEq, Repr

/-- AdjustStock.execute from src/ai_tools.py: fetch the product by id
(Product.objects.get -- `none` models the DoesNotExist exception),
classify the movement type (`'in' if qty > 0 else 'adjustment'`),
create one StockMovement with quantity `abs(qty)` and the reason as
reference, then `p.stock += qty; p.save(update_fields=['stock'])`.
The source makes no hook-registry call and never reads
allow_negative_stock, so those state components are untouched. -/
def adjustStock_execute (s : InvState) (product_id : Nat) (qty : Int)
    (reason : Option (List Char)) : Option (InvState × AdjustResult) :=
  match s.products.find? (fun p => p.id == product_id) with
  | none => none
  | some p =>
      let movement_type := if qty > 0 then MovementType.stockIn else MovementType.adjustment
      let mv : StockMovement :=
        { product_id := p.id, movement_type := movement_type,
          quantity := (qty.natAbs : Int), reference := reason.getD defaultAdjustReason }
      some ({ s with
              products := s.products.map
                (fun q => if q.id == product_id then { q with stock := q.stock + qty } else q),
              movements := s.movements ++ [mv] },
            { product_name := p.name, new_stock := p.stock + qty, adjusted_by := qty })

/-- A subscriber of the hook registry.  Modelled from the spec: the
hooks/slots registry (apps.core.hooks, outside src/) calls each
registered subscriber synchronously; a subscriber may raise
ValidationError to veto, modelled as returning `some message`. -/
def HookSubscriber : Type := HookCall → Option (List Char)

/-- Modelled from the spec: `hooks.do_action(action, **kwargs)` of
apps.core.hooks (outside src/) invokes every registered subscriber in
order; an exception raised by a subscriber propagates to the caller,
modelled as `Except.error` carrying the veto message. -/
def do_action (registry : List HookSubscriber) (call : HookCall) : Except (List Char) Unit :=
  match registry with
  | [] => .ok ()
  | f :: rest =>
      match f call with
      | some err => .error err
      | none => do_action rest call

/-- The HookCall built by InventoryConfig.do_before_stock_change in
src/apps.py. -/
def beforeStockChangeCall (product : Product) (old_quantity new_quantity : Int)
    (reason : List Char) (user : Option Nat) : HookCall :=
  { action := "inventory.before_stock_change".data, product_id := product.id,
    old_quantity := old_quantity, new_quantity := new_quantity,
    reason := reason, user := user }

/-- InventoryConfig.do_before_stock_change from src/apps.py: dispatch
the `inventory.before_stock_change` hook with (product, old_quantity,
new_quantity, reason, user); a subscriber's ValidationError propagates
to the caller. -/
def do_before_stock_change (registry : List HookSubscriber) (product : Product)
    (old_quantity new_quantity : Int) (reason : List Char) (user : Option Nat) :
    Except (List Char) Unit :=
  do_action registry (beforeStockChangeCall product old_quantity new_quantity reason user)

/-- The HookCall built by InventoryConfig.do_after_stock_change in
src/apps.py. -/
def afterStockChangeCall (product : Product) (old_quantity new_quantity : Int)
    (reason : List Char) (user : Option Nat) : HookCall :=
  { action := "inventory.after_stock_change".data, product_id := product.id,
    old_quantity := old_quantity, new_quantity := new_quantity,
    reason := reason, user := user }

/-- InventoryConfig.do_after_stock_change from src/apps.py: dispatch
the `inventory.after_stock_change` hook with the same arguments. -/
def do_after_stock_change (registry : List HookSubscriber) (product : Product)
    (old_quantity new_quantity : Int) (reason : List Char) (user : Option Nat) :
    Except (List Char) Unit :=
  do_action registry (afterStockChangeCall product old_quantity new_quantity reason user)

/-- Payload of the low_stock_alert signal broadcast by check_low_stock
in src/apps.py. -/
structure LowStockAlert where
  product_id : Nat
  current_stock : Int
  minimum_stock : Int
deriving DecidableEq, Repr

/-- The expression `getattr(product, 'min_stock', 0) or 0` from
check_low_stock in src/apps.py.  The Product model of src/models.py
defines no attribute named min_stock (its configured minimum is the
low_stock_threshold field), so the getattr default 0 always applies
and `or 0` keeps it 0. -/
def min_stock_lookup (_p : Product) : Int := 0

/-- The check_low_stock stock_changed signal handler registered by
InventoryConfig._register_signal_handlers in src/apps.py: look the
product up by id (the DoesNotExist branch is the silent `except ...:
pass`, modelled as `none`), read `min_stock` via getattr, and send a
low_stock_alert exactly when `new_quantity <= min_stock`.  The result
is the broadcast emitted, if any. -/
def check_low_stock (products : List Product) (product_id : Nat) (new_quantity : Int) :
    Option LowStockAlert :=
  match products.find? (fun p => p.id == product_id) with
  | none => none
  | some product =>
      let m := min_stock_lookup product
      if new_quantity ≤ m then
        some { product_id := product.id, current_stock := new_quantity, minimum_stock := m }
      else none

/-- The `sku__iexact=ref` lookup of BulkAdjustStock.execute. -/
def skuMatch (ref : List Char) (p : Product) : Bool := lower p.sku == lower ref

/-- The `ean13=ref` exact lookup of BulkAdjustStock.execute. -/
def eanMatch (ref : List Char) (p : Product) : Bool := p.ean13 == ref

/-- The `name__iexact=ref` lookup of BulkAdjustStock.execute. -/
def nameExactMatch (ref : List Char) (p : Product) : Bool := lower p.name == lower ref

/-- The `name__icontains=ref` lookup of BulkAdjustStock.execute. -/
def nameContainsMatch (ref : List Char) (p : Product) : Bool :=
  containsSub (lower ref) (lower p.name)

/-- Product resolution of BulkAdjustStock.execute in src/ai_tools.py:
`filter(sku__iexact=ref).first() or filter(ean13=ref).first() or
filter(name__iexact=ref).first() or filter(name__icontains=ref).first()`.
`.first()` on the unordered filter is modelled as the first matching
row of the table. -/
def resolveRef (products : List Product) (ref : List Char) : Option Product :=
  (products.find? (skuMatch ref)) <|>
    ((products.find? (eanMatch ref)) <|>
      ((products.find? (nameExactMatch ref)) <|> (products.find? (nameContainsMatch ref))))

/-- One item of the BulkAdjustStock argument list. -/
structure BulkItem where
  reference : List Char
  quantity : Int
deriving DecidableEq, Repr

/-- One entry of the `adjusted` result list of BulkAdjustStock.execute. -/
structure AdjustedEntry where
  reference : List Char
  product_name : List Char
  sku : List Char
  quantity : Int
  new_stock : Int
deriving DecidableEq, Repr

/-- One entry of the `not_found` result list of BulkAdjustStock.execute. -/
structure NotFoundEntry where
  reference : List Char
  reason : List Char
deriving DecidableEq, Repr

/-- The failure reason string for an empty reference or zero quantity. -/
def emptyOrZeroReason : List Char := "Empty reference or zero quantity".data

/-- The failure reason string for an unresolvable reference. -/
def productNotFoundReason : List Char := "Product not found".data

/-- One iteration of the `for item in items` loop of
BulkAdjustStock.execute in src/ai_tools.py, threading the database
state and accumulating the `adjusted` and `not_found` lists: strip the
reference; an empty reference or zero quantity is appended to
not_found and the loop continues; an unresolved reference likewise;
otherwise create the StockMovement (quantity `abs(qty)`, reference the
bulk reason), apply `product.stock += qty;
product.save(update_fields=['stock'])` and append the adjusted entry. -/
def bulkStep (reason : List Char) (acc : InvState × List AdjustedEntry × List NotFoundEntry)
    (item : BulkItem) : InvState × List AdjustedEntry × List NotFoundEntry :=
  let s := acc.1
  let adjusted := acc.2.1
  let not_found := acc.2.2
  let ref := pyStrip item.reference
  let qty := item.quantity
  if ref = [] ∨ qty = 0 then
    (s, adjusted, not_found ++ [{ reference := ref, reason := emptyOrZeroReason }])
  else
    match resolveRef s.products ref with
    | none => (s, adjusted, not_found ++ [{ reference := ref, reason := productNotFoundReason }])
    | some product =>
        let movement_type := if qty > 0 then MovementType.stockIn else MovementType.adjustment
        let mv : StockMovement :=
          { product_id := product.id, movement_type := movement_type,
            quantity := (qty.natAbs : Int), reference := reason }
        ({ s with
           movements := s.movements ++ [mv],
           products := s.products.map
             (fun q => if q.id == product.id then { q with stock := q.stock + qty } else q) },
         adjusted ++ [{ reference := ref, product_name := product.name, sku := product.sku,
                        quantity := qty, new_stock := product.stock + qty }],
         not_found)

/-- Result payload of BulkAdjustStock.execute; the summary counts model
the f-string `"{len(adjusted)} products adjusted, {len(not_found)} not
found"`. -/
structure BulkResult where
  adjusted : List AdjustedEntry
  not_found : List NotFoundEntry
  summary_adjusted : Nat
  summary_not_found : Nat
deriving DecidableEq, Repr

/-- BulkAdjustStock.execute from src/ai_tools.py: fold bulkStep over
the item list (each successful item is committed as it is processed;
there is no surrounding transaction in the source) and report the two
accumulated lists with their counts. -/
def bulkAdjustStock_execute (s : InvState) (items : List BulkItem) (reason : List Char) :
    InvState × BulkResult :=
  let r := items.foldl (bulkStep reason) (s, [], [])
  (r.1, { adjusted := r.2.1, not_found := r.2.2,
          summary_adjusted := r.2.1.length, summary_not_found := r.2.2.length })

/-- Decision of BulkAdjustStock.execute that an item fails (lands in
not_found): stripped reference empty, quantity zero, or reference
unresolvable against the product table. -/
def itemFails (products : List Product) (item : BulkItem) : Bool :=
  pyStrip item.reference = [] ∨ item.quantity = 0 ∨
    resolveRef products (pyStrip item.reference) = none

/-- The not_found entry BulkAdjustStock.execute records for a failing
item. -/
def failEntry (_products : List Product) (item : BulkItem) : NotFoundEntry :=
  let ref := pyStrip item.reference
  if ref = [] ∨ item.quantity = 0 then { reference := ref, reason := emptyOrZeroReason }
  else { reference := ref, reason := productNotFoundReason }

/-- Modelled from the spec: the NFKD-normalise-then-ascii-encode step
of Django's slugify (django.utils.text, outside this repository),
which the spec describes as the normalisation under which both
example names yield base slug "cafe": an accented Latin letter
decomposes into its base letter plus a combining mark that the ascii
encoding drops; plain ASCII passes through; other characters are
dropped. -/
def asciiFold (c : Char) : List Char :=
  if c.toNat < 128 then [c]
  else if c ∈ ['á', 'à', 'â', 'ä', 'Á', 'À', 'Â', 'Ä'] then ['a']
  else if c ∈ ['é', 'è', 'ê', 'ë', 'É', 'È', 'Ê', 'Ë'] then ['e']
  else if c ∈ ['í', 'ì', 'î', 'ï', 'Í', 'Ì', 'Î', 'Ï'] then ['i']
  else if c ∈ ['ó', 'ò', 'ô', 'ö', 'Ó', 'Ò', 'Ô', 'Ö'] then ['o']
  else if c ∈ ['ú', 'ù', 'û', 'ü', 'Ú', 'Ù', 'Û', 'Ü'] then ['u']
  else if c ∈ ['ñ', 'Ñ'] then ['n']
  else if c ∈ ['ç', 'Ç'] then ['c']
  else []

/-- Character class `\w` of the slugify regex after the ascii fold:
letters, digits and underscore. -/
def isWordChar (c : Char) : Bool := c.isAlpha || c.isDigit || c = '_'

/-- Character class `[-\s]` of the slugify regexes. -/
def isSepChar (c : Char) : Bool := c.isWhitespace || c = '-'

/-- The substitution `re.sub(r'[-\s]+', '-', value)` of slugify:
every maximal run of separator characters becomes one hyphen.  The
Boolean records whether the previous character was part of a
separator run already replaced. -/
def collapseSepAux : Bool → List Char → List Char
  | _, [] => []
  | prevSep, c :: rest =>
      if isSepChar c then
        if prevSep then collapseSepAux true rest
        else '-' :: collapseSepAux true rest
      else c :: collapseSepAux false rest

/-- Collapse every maximal separator run to one hyphen. -/
def collapseSep (s : List Char) : List Char := collapseSepAux false s

/-- The final `.strip('-_')` of slugify. -/
def stripDashUnderscore (s : List Char) : List Char :=
  let p : Char → Bool := fun c => c = '-' || c = '_'
  ((s.dropWhile p).reverse.dropWhile p).reverse

/-- Modelled from the spec: django.utils.text.slugify (outside this
repository) with allow_unicode false, as used by Category.save in
src/models.py: NFKD-normalise and drop non-ascii (asciiFold),
lower-case, delete characters that are neither word characters nor
whitespace nor hyphens, collapse separator runs to single hyphens,
strip leading and trailing hyphens and underscores. -/
def slugify (s : List Char) : List Char :=
  let ascii := (s.map asciiFold).flatten
  let kept := (lower ascii).filter (fun c => isWordChar c || c.isWhitespace || c = '-')
  stripDashUnderscore (collapseSep kept)

/-- Category.save from src/models.py, restricted to the fields it
touches: `if self.name: self.name = self.name.strip().capitalize()`;
`if not self.slug: self.slug = slugify(self.name)`.  Returns the
(name, slug) pair as persisted; the source contains no uniqueness
check and no suffix logic. -/
def category_save (name slug : List Char) : List Char × List Char :=
  let name' := if name ≠ [] then pyCapitalize (pyStrip name) else name
  let slug' := if slug = [] then slugify name' else slug
  (name', slug')

/-- The check-digit computation of Command.generate_ean13 in
src/management/commands/populate_ean13.py over a 12-digit base:
`odd_sum = sum(code[i] for i in range(0, 12, 2))`,
`even_sum = sum(code[i] for i in range(1, 12, 2))`,
`(10 - (odd_sum + even_sum * 3) % 10) % 10`. -/
def ean13_check_digit (code : List Nat) : Nat :=
  let odd_sum := ((List.range 6).map (fun i => code.getD (2 * i) 0)).sum
  let even_sum := ((List.range 6).map (fun i => code.getD (2 * i + 1) 0)).sum
  (10 - (odd_sum + even_sum * 3) % 10) % 10

/-- Command.generate_ean13 from src/management/commands/populate_ean13.py
with the 12 random digits passed in as input: append the computed
check digit to the 12-digit base. -/
def generate_ean13 (base : List Nat) : List Nat := base ++ [ean13_check_digit base]

/-- Digit to character, for storing a generated code in the ean13
CharField. -/
def digitChar (d : Nat) : Char := Char.ofNat (48 + d)

/-- The per-product retry loop of Command.handle in
src/management/commands/populate_ean13.py, with the stream of random
12-digit bases passed in as input: up to `max_attempts = 100` times,
generate a code and test it against the existing codes (`used`); the
first unused code is assigned to the product (`true` = saved); if all
100 attempts collide the product is left unchanged and a warning is
printed (`false`). -/
def populate_product_ean13 (bases : List (List Nat)) (used : List Nat → Bool)
    (p : Product) : Product × Bool :=
  match ((bases.take 100).map generate_ean13).find? (fun e => !used e) with
  | some e => ({ p with ean13 := e.map digitChar }, true)
  | none => (p, false)

/-- Projection of every Product column except `stock`: the columns
that `save(update_fields=['stock'])` leaves untouched. -/
def productFrame (p : Product) :
    Nat × List Char × List Char × List Char × List Char × ProductType × Int × Int ×
      Nat × List Nat × Bool :=
  (p.id, p.name, p.sku, p.ean13, p.description, p.product_type, p.price, p.cost,
   p.low_stock_threshold, p.categories, p.is_active)

/-- A concrete product used by the witness theorems. -/
def sampleProduct : Product :=
  { id := 1, name := "Shampoo".data, sku := "SH-1".data, ean13 := "4006381333931".data,
    description := [], product_type := ProductType.physical, price := 1250, cost := 450,
    stock := 10, low_stock_threshold := 5, categories := [3], is_active := true }

/-- A concrete second product used by the bulk-adjustment witnesses. -/
def sampleProduct2 : Product :=
  { id := 2, name := "Tinte rubio ceniza".data, sku := "T-2".data, ean13 := [],
    description := [], product_type := ProductType.physical, price := 890, cost := 450,
    stock := 3, low_stock_threshold := 2, categories := [], is_active := true }

/-- A concrete starting state used by the witness theorems. -/
def sampleState : InvState :=
  { products := [sampleProduct], movements := [], allow_negative_stock := false,
    hook_calls := [] }

/-- The state produced by `adjustStock_execute sampleState 1 5 none`. -/
def sampleAdjusted : InvState :=
  { products := [{ sampleProduct with stock := 15 }],
    movements := [{ product_id := 1, movement_type := MovementType.stockIn, quantity := 5,
                    reference := defaultAdjustReason }],
    allow_negative_stock := false, hook_calls := [] }

/-- The result payload produced by `adjustStock_execute sampleState 1 5 none`. -/
def sampleAdjustResult : AdjustResult :=
  { product_name := sampleProduct.name, new_stock := 15, adjusted_by := 5 }

/-- A state whose only product has zero stock, with the negative-stock
setting disabled. -/
def zeroStockState : InvState :=
  { products := [{ sampleProduct with stock := 0 }], movements := [],
    allow_negative_stock := false, hook_calls := [] }

/-- A concrete two-product state used by the bulk witnesses. -/
def bulkState : InvState :=
  { products := [sampleProduct, sampleProduct2], movements := [],
    allow_negative_stock := false, hook_calls := [] }

/-- The spec scenario item list: two resolvable references and one
unresolvable reference, the unresolvable one last. -/
def bulkItemsGood : List BulkItem :=
  [{ reference := "SH-1".data, quantity := 24 }, { reference := "Tinte Rubio".data, quantity := 12 }]

/-- An item whose reference resolves to no product. -/
def badItem : BulkItem := { reference := "does not exist".data, quantity := 5 }

-- ======================================================================
-- Helper lemmas
-- ======================================================================

/-- Updating the stock of the row with a given id commutes with looking
that id up: the lookup afterwards returns the previously found row with
only its stock changed. -/
theorem find_update_stock (l : List Product) (pid : Nat) (qty : Int) :
    (l.map (fun q => if q.id == pid then { q with stock := q.stock + qty } else q)).find?
        (fun q => q.id == pid) =
      (l.find? (fun q => q.id == pid)).map (fun p => { p with stock := p.stock + qty }) := by
  rw [List.find?_map]
  have hcomp : ((fun (q : Product) => q.id == pid) ∘ fun (q : Product) =>
      if q.id == pid then { q with stock := q.stock + qty } else q) =
      (fun (q : Product) => q.id == pid) := by
    funext q
    by_cases h : q.id == pid <;> simp [Function.comp, h]
  rw [hcomp]
  rcases hf : l.find? (fun q => q.id == pid) with _ | x
  · rw [hf]
    rfl
  · rw [hf]
    have hx : x.id = pid := by simpa using List.find?_some hf
    simp [hx]

/-- The stock update of a single row does not change the frame (every
column but stock) of any row. -/
theorem frame_update_stock (l : List Product) (pid : Nat) (qty : Int) :
    ((l.map (fun q => if q.id == pid then { q with stock := q.stock + qty } else q)).map
        productFrame) = l.map productFrame := by
  rw [List.map_map]
  apply List.map_congr_left
  intro q _
  by_cases h : q.id == pid <;> simp [Function.comp, productFrame, h]

/-- The hook registry dispatch succeeds exactly when no registered
subscriber vetoes the call; any veto propagates as the error. -/
theorem do_action_ok_iff (registry : List HookSubscriber) (call : HookCall) :
    do_action registry call = Except.ok () ↔ ∀ f ∈ registry, f call = none := by
  induction registry with
  | nil => simp [do_action]
  | cons f rest ih =>
      rcases hf : f call with _ | err
      · simp [do_action, hf, ih]
      · simp only [do_action, hf]
        constructor
        · intro h
          exact absurd h (by simp)
        · intro h
          exact absurd (h f (by simp)) (by simp [hf])

/-- A failing item (empty reference, zero quantity, or unresolvable
reference) leaves the state untouched and appends its failure entry to
the not_found accumulator. -/
theorem bulkStep_fail (reason : List Char) (s : InvState) (adj : List AdjustedEntry)
    (nf : List NotFoundEntry) (item : BulkItem) (h : itemFails s.products item = true) :
    bulkStep reason (s, adj, nf) item = (s, adj, nf ++ [failEntry s.products item]) := by
  have h' : pyStrip item.reference = [] ∨ item.quantity = 0 ∨
      resolveRef s.products (pyStrip item.reference) = none := by
    simpa [itemFails] using h
  by_cases h1 : pyStrip item.reference = [] ∨ item.quantity = 0
  · simp only [bulkStep, failEntry]
    rw [if_pos h1, if_pos h1]
  · have h2 : resolveRef s.products (pyStrip item.reference) = none := by
      rcases h' with hA | hB | hC
      · exact absurd (Or.inl hA) h1
      · exact absurd (Or.inr hB) h1
      · exact hC
    simp only [bulkStep, failEntry]
    rw [if_neg h1, if_neg h1, h2]

/-- A successful item creates its audit row, updates the resolved
product's stock, and appends its adjusted entry. -/
theorem bulkStep_success (reason : List Char) (s : InvState) (adj : List AdjustedEntry)
    (nf : List NotFoundEntry) (item : BulkItem) (product : Product)
    (h1 : ¬(pyStrip item.reference = [] ∨ item.quantity = 0))
    (hr : resolveRef s.products (pyStrip item.reference) = some product) :
    bulkStep reason (s, adj, nf) item =
      ({ s with
         movements := s.movements ++
           [{ product_id := product.id,
              movement_type := if item.quantity > 0 then MovementType.stockIn
                else MovementType.adjustment,
              quantity := (item.quantity.natAbs : Int), reference := reason }],
         products := s.products.map
           (fun q => if q.id == product.id then { q with stock := q.stock + item.quantity }
             else q) },
       adj ++ [{ reference := pyStrip item.reference, product_name := product.name,
                 sku := product.sku, quantity := item.quantity,
                 new_stock := product.stock + item.quantity }],
       nf) := by
  simp only [bulkStep]
  rw [if_neg h1, hr]

/-- The fold of bulkStep only ever appends to the two accumulator
lists: starting it from (adj, nf) prepends those lists to the result
of starting it empty, with the same final state. -/
theorem bulk_foldl_acc (reason : List Char) (items : List BulkItem) :
    ∀ (s : InvState) (adj : List AdjustedEntry) (nf : List NotFoundEntry),
      items.foldl (bulkStep reason) (s, adj, nf) =
        ((items.foldl (bulkStep reason) (s, [], [])).1,
         adj ++ (items.foldl (bulkStep reason) (s, [], [])).2.1,
         nf ++ (items.foldl (bulkStep reason) (s, [], [])).2.2) := by
  induction items with
  | nil =>
      intro s adj nf
      simp
  | cons item rest ih =>
      intro s adj nf
      rw [List.foldl_cons, List.foldl_cons]
      by_cases hfail : itemFails s.products item = true
      · rw [bulkStep_fail _ _ _ _ _ hfail, bulkStep_fail _ _ _ _ _ hfail]
        rw [ih s adj (nf ++ [failEntry s.products item]),
            ih s [] ([] ++ [failEntry s.products item])]
        simp
      · have h1 : ¬(pyStrip item.reference = [] ∨ item.quantity = 0) := by
          intro hc
          exact hfail (by simp only [itemFails, decide_eq_true_eq]; tauto)
        rcases hres : resolveRef s.products (pyStrip item.reference) with _ | product
        · exact absurd (by simp only [itemFails, decide_eq_true_eq]; tauto) hfail
        · rw [bulkStep_success _ _ _ _ _ _ h1 hres, bulkStep_success _ _ _ _ _ _ h1 hres]
          rw [ih _ (adj ++ [_]) nf, ih _ ([] ++ [_]) []]
          simp

/-- Every item of the bulk fold lands in exactly one of the two result
lists. -/
theorem bulk_count (reason : List Char) (items : List BulkItem) :
    ∀ s : InvState,
      (items.foldl (bulkStep reason) (s, [], [])).2.1.length +
        (items.foldl (bulkStep reason) (s, [], [])).2.2.length = items.length := by
  induction items with
  | nil => intro s; rfl
  | cons item rest ih =>
      intro s
      rw [List.foldl_cons]
      by_cases hfail : itemFails s.products item = true
      · rw [bulkStep_fail _ _ _ _ _ hfail,
            bulk_foldl_acc reason rest s [] ([] ++ [failEntry s.products item])]
        have := ih s
        simp only [List.length_cons, List.length_append, List.length_nil] at *
        omega
      · have h1 : ¬(pyStrip item.reference = [] ∨ item.quantity = 0) := by
          intro hc
          exact hfail (by simp only [itemFails, decide_eq_true_eq]; tauto)
        rcases hres : resolveRef s.products (pyStrip item.reference) with _ | product
        · exact absurd (by simp only [itemFails, decide_eq_true_eq]; tauto) hfail
        · rw [bulkStep_success _ _ _ _ _ _ h1 hres]
          rw [bulk_foldl_acc reason rest _ ([] ++ [_]) []]
          have := ih ({ s with
            movements := s.movements ++
              [{ product_id := product.id,
                 movement_type := if item.quantity > 0 then MovementType.stockIn
                   else MovementType.adjustment,
                 quantity := (item.quantity.natAbs : Int), reference := reason }],
            products := s.products.map
              (fun q => if q.id == product.id then { q with stock := q.stock + item.quantity }
                else q) } : InvState)
          simp only [List.length_cons, List.length_append, List.length_nil] at *
          omega

/-- The bulk fold never changes any product column other than stock. -/
theorem bulk_frame (reason : List Char) (items : List BulkItem) :
    ∀ s : InvState,
      ((items.foldl (bulkStep reason) (s, [], [])).1).products.map productFrame =
        s.products.map productFrame := by
  induction items with
  | nil => intro s; rfl
  | cons item rest ih =>
      intro s
      rw [List.foldl_cons]
      by_cases hfail : itemFails s.products item = true
      · rw [bulkStep_fail _ _ _ _ _ hfail,
            bulk_foldl_acc reason rest s [] ([] ++ [failEntry s.products item])]
        exact ih s
      · have h1 : ¬(pyStrip item.reference = [] ∨ item.quantity = 0) := by
          intro hc
          exact hfail (by simp only [itemFails, decide_eq_true_eq]; tauto)
        rcases hres : resolveRef s.products (pyStrip item.reference) with _ | product
        · exact absurd (by simp only [itemFails, decide_eq_true_eq]; tauto) hfail
        · rw [bulkStep_success _ _ _ _ _ _ h1 hres,
              bulk_foldl_acc reason rest _ ([] ++ [_]) []]
          rw [ih _]
          exact frame_update_stock s.products product.id item.quantity

/-- The bulk fold never performs a hook-registry invocation: the
hook-call trace of the state is unchanged by every step. -/
theorem bulk_hook_calls (reason : List Char) (items : List BulkItem) :
    ∀ s : InvState,
      ((items.foldl (bulkStep reason) (s, [], [])).1).hook_calls = s.hook_calls := by
  induction items with
  | nil => intro s; rfl
  | cons item rest ih =>
      intro s
      rw [List.foldl_cons]
      by_cases hfail : itemFails s.products item = true
      · rw [bulkStep_fail _ _ _ _ _ hfail,
            bulk_foldl_acc reason rest s [] ([] ++ [failEntry s.products item])]
        exact ih s
      · have h1 : ¬(pyStrip item.reference = [] ∨ item.quantity = 0) := by
          intro hc
          exact hfail (by simp only [itemFails, decide_eq_true_eq]; tauto)
        rcases hres : resolveRef s.products (pyStrip item.reference) with _ | product
        · exact absurd (by simp only [itemFails, decide_eq_true_eq]; tauto) hfail
        · rw [bulkStep_success _ _ _ _ _ _ h1 hres,
              bulk_foldl_acc reason rest _ ([] ++ [_]) []]
          exact ih _

-- ======================================================================
-- Claim theorems
-- ======================================================================

/-- C1: for every product with stock S found by the given id and every
signed integer delta, AdjustStock.execute succeeds, leaves the
product's stock equal to S + delta, and creates exactly one new
StockMovement row whose quantity is the unsigned magnitude of the
delta, whose movement type is `in` when delta > 0 and `adjustment`
when delta <= 0, and whose reference carries the given reason
string. -/
theorem C1_adjust_stock_correct (s : InvState) (pid : Nat) (qty : Int)
    (reason : List Char) (p : Product)
    (h : s.products.find? (fun q => q.id == pid) = some p) :
    ∃ s' res, adjustStock_execute s pid qty (some reason) = some (s', res) ∧
      s'.products.find? (fun q => q.id == pid) = some { p with stock := p.stock + qty } ∧
      s'.movements = s.movements ++
        [{ product_id := p.id,
           movement_type := if qty > 0 then MovementType.stockIn else MovementType.adjustment,
           quantity := (qty.natAbs : Int), reference := reason }] ∧
      res = { product_name := p.name, new_stock := p.stock + qty, adjusted_by := qty } := by
  have hstep : adjustStock_execute s pid qty (some reason) =
      some ({ s with
              products := s.products.map
                (fun q => if q.id == pid then { q with stock := q.stock + qty } else q),
              movements := s.movements ++
                [{ product_id := p.id,
                   movement_type := if qty > 0 then MovementType.stockIn
                     else MovementType.adjustment,
                   quantity := (qty.natAbs : Int), reference := reason }] },
            { product_name := p.name, new_stock := p.stock + qty, adjusted_by := qty }) := by
    unfold adjustStock_execute
    rw [h]
    rfl
  refine ⟨_, _, hstep, ?_, rfl, rfl⟩
  simp only [find_update_stock, h, Option.map_some']

/-- C1 witness: the adjustment at a concrete state and delta. -/
theorem C1_adjust_stock_correct_witness :
    ∃ s' res, adjustStock_execute sampleState 1 (-4) (some "recount".data) = some (s', res) ∧
      s'.products.find? (fun q => q.id == 1) =
        some { sampleProduct with stock := sampleProduct.stock + (-4) } ∧
      s'.movements = sampleState.movements ++
        [{ product_id := sampleProduct.id,
           movement_type := if (-4 : Int) > 0 then MovementType.stockIn
             else MovementType.adjustment,
           quantity := ((-4 : Int).natAbs : Int), reference := "recount".data }] ∧
      res = { product_name := sampleProduct.name,
              new_stock := sampleProduct.stock + (-4), adjusted_by := -4 } :=
  C1_adjust_stock_correct sampleState 1 (-4) "recount".data sampleProduct (by decide)

/-- C2: evaluation of the code at the failing input.  The claim says a
stock change to 3 on a product whose configured low-stock minimum
(low_stock_threshold) is 5 emits a low-stock broadcast; check_low_stock
emits none, because the handler reads the nonexistent attribute
min_stock (getattr default 0) instead of low_stock_threshold.  It also
says minimum 0 never broadcasts, yet the handler broadcasts at
new_quantity 0. -/
theorem C2_low_stock_threshold_ignored :
    sampleProduct.low_stock_threshold = 5 ∧
    check_low_stock [sampleProduct] 1 3 = none ∧
    check_low_stock [{ sampleProduct with low_stock_threshold := 0 }] 1 0 =
      some { product_id := 1, current_stock := 0, minimum_stock := 0 } := by
  refine ⟨rfl, ?_, ?_⟩ <;> decide

/-- C10: a stock-changed notification whose product id matches no
existing product makes check_low_stock do nothing: no broadcast is
emitted, and the handler returns normally (the embedding is a total
function; the DoesNotExist branch of the source is the silent
`except Product.DoesNotExist: pass`). -/
theorem C10_missing_product_silent (products : List Product) (pid : Nat) (qty : Int)
    (h : products.find? (fun p => p.id == pid) = none) :
    check_low_stock products pid qty = none := by
  unfold check_low_stock
  rw [h]

/-- C10 witness: a concrete notification for an id not in the table. -/
theorem C10_missing_product_silent_witness :
    check_low_stock [sampleProduct] 99 0 = none :=
  C10_missing_product_silent [sampleProduct] 99 0 (by decide)

/-- C5 counterexample: saving two categories whose names both
normalise to base slug "cafe" yields slug "cafe" for BOTH — the second
does not receive the suffixed slug "cafe-1" the claim requires,
because Category.save contains no collision resolution. -/
theorem C5_counterexample_slug_collision :
    (category_save "Café".data []).2 = "cafe".data ∧
    (category_save "Cafe".data []).2 = "cafe".data ∧
    "cafe".data ≠ "cafe-1".data := by
  refine ⟨?_, ?_, ?_⟩ <;> decide

/-- C5 amended: after Category.save, a blank slug is auto-generated as
the slugification of the saved (stripped, capitalised) name and a
non-blank slug is kept unchanged; there is no uniqueness enforcement
and no numeric-suffix collision resolution, so categories whose names
share a base slug share the slug. -/
theorem C5_slug_autogenerated (name slug : List Char) :
    (slug = [] → (category_save name slug).2 = slugify (category_save name slug).1) ∧
    (slug ≠ [] → (category_save name slug).2 = slug) := by
  constructor
  · intro h
    simp [category_save, h]
  · intro h
    simp [category_save, h]

/-- C5 witness: the amended theorem at a blank slug and at a provided
slug. -/
theorem C5_slug_autogenerated_witness :
    ((category_save "Café".data []).2 = slugify (category_save "Café".data []).1) ∧
    ((category_save "X".data ['y']).2 = ['y']) :=
  ⟨(C5_slug_autogenerated "Café".data []).1 rfl,
   (C5_slug_autogenerated "X".data ['y']).2 (by decide)⟩

/-- C6 counterexample: with the tenant's allow-negative-stock setting
disabled and a product at stock 0, the adjustment with delta -5 is not
rejected: it succeeds and drives the stock to -5. -/
theorem C6_counterexample_negative_stock :
    zeroStockState.allow_negative_stock = false ∧
    ((adjustStock_execute zeroStockState 1 (-5) none).map fun x => stockOf x.1 1) =
      some (some (-5)) := by
  refine ⟨rfl, ?_⟩
  decide

/-- C6 amended: AdjustStock.execute never consults the
allow-negative-stock setting: for any value of the setting (in
particular disabled) and any delta, the adjustment succeeds and sets
the stock to S + delta, even when that is negative. -/
theorem C6_setting_not_consulted (s : InvState) (pid : Nat) (qty : Int)
    (reason : Option (List Char)) (p : Product) (b : Bool)
    (h : s.products.find? (fun q => q.id == pid) = some p) :
    ∃ s' res,
      adjustStock_execute { s with allow_negative_stock := b } pid qty reason =
        some (s', res) ∧
      stockOf s' pid = some (p.stock + qty) := by
  have h' : ({ s with allow_negative_stock := b } : InvState).products.find?
      (fun q => q.id == pid) = some p := h
  unfold adjustStock_execute
  rw [h']
  refine ⟨_, _, rfl, ?_⟩
  unfold stockOf
  simp only [find_update_stock]
  rw [h']
  rfl

/-- C6 witness: the amended theorem at the zero-stock state with the
setting disabled and a negative delta. -/
theorem C6_setting_not_consulted_witness :
    ∃ s' res,
      adjustStock_execute { zeroStockState with allow_negative_stock := false } 1 (-5) none =
        some (s', res) ∧
      stockOf s' 1 = some (({ sampleProduct with stock := 0 } : Product).stock + (-5)) :=
  C6_setting_not_consulted zeroStockState 1 (-5) none { sampleProduct with stock := 0 } false
    (by decide)

/-- C7: product resolution tries, in order, case-insensitive exact
SKU, exact EAN-13, case-insensitive exact name, then case-insensitive
substring name; the first lookup that yields a product wins, and the
result is `none` exactly when all four lookups yield nothing. -/
theorem C7_resolution_order (products : List Product) (ref : List Char) :
    (resolveRef products ref = none ↔
      products.find? (skuMatch ref) = none ∧ products.find? (eanMatch ref) = none ∧
        products.find? (nameExactMatch ref) = none ∧
        products.find? (nameContainsMatch ref) = none) ∧
    (∀ p, products.find? (skuMatch ref) = some p → resolveRef products ref = some p) ∧
    (products.find? (skuMatch ref) = none →
      ∀ p, products.find? (eanMatch ref) = some p → resolveRef products ref = some p) ∧
    (products.find? (skuMatch ref) = none → products.find? (eanMatch ref) = none →
      ∀ p, products.find? (nameExactMatch ref) = some p → resolveRef products ref = some p) ∧
    (products.find? (skuMatch ref) = none → products.find? (eanMatch ref) = none →
      products.find? (nameExactMatch ref) = none →
      resolveRef products ref = products.find? (nameContainsMatch ref)) := by
  unfold resolveRef
  rcases h1 : products.find? (skuMatch ref) with _ | p1 <;>
    rcases h2 : products.find? (eanMatch ref) with _ | p2 <;>
      rcases h3 : products.find? (nameExactMatch ref) with _ | p3 <;>
        rcases h4 : products.find? (nameContainsMatch ref) with _ | p4 <;>
          simp [h1, h2, h3, h4]

/-- C7 witness: a concrete resolution through the third (exact name)
lookup with the first two lookups empty, and one through the first
(SKU) lookup. -/
theorem C7_resolution_order_witness :
    resolveRef [sampleProduct] "shampoo".data = some sampleProduct ∧
    resolveRef [sampleProduct] "sh-1".data = some sampleProduct :=
  ⟨(C7_resolution_order [sampleProduct] "shampoo".data).2.2.2.1 (by decide) (by decide)
      sampleProduct (by decide),
   (C7_resolution_order [sampleProduct] "sh-1".data).2.1 sampleProduct (by decide)⟩

/-- C8: for every 12-digit base, the generated code has 13 digits and
recomputing the check digit from its first 12 digits reproduces the
13th; the per-product population loop consults at most the first 100
candidate codes, and when all 100 collide with existing codes the
product is left unchanged (with a warning). -/
theorem C8_ean13_check_and_retry :
    (∀ base : List Nat, base.length = 12 →
      (generate_ean13 base).length = 13 ∧
        ean13_check_digit ((generate_ean13 base).take 12) = (generate_ean13 base).getD 12 0) ∧
    (∀ (bases : List (List Nat)) (used : List Nat → Bool) (p : Product),
      populate_product_ean13 bases used p = populate_product_ean13 (bases.take 100) used p) ∧
    (∀ (bases : List (List Nat)) (used : List Nat → Bool) (p : Product),
      (∀ e ∈ (bases.take 100).map generate_ean13, used e = true) →
      populate_product_ean13 bases used p = (p, false)) := by
  refine ⟨?_, ?_, ?_⟩
  · intro base hlen
    constructor
    · simp [generate_ean13, hlen]
    · unfold generate_ean13
      have htake : (base ++ [ean13_check_digit base]).take 12 = base := by
        rw [← hlen]
        exact List.take_left base [ean13_check_digit base]
      have hget : (base ++ [ean13_check_digit base]).getD 12 0 = ean13_check_digit base := by
        rw [List.getD_eq_getElem?_getD, List.getElem?_append_right (by omega), hlen]
        rfl
      rw [htake, hget]
  · intro bases used p
    unfold populate_product_ean13
    rw [List.take_take]
    norm_num
  · intro bases used p hall
    unfold populate_product_ean13
    have : ((bases.take 100).map generate_ean13).find? (fun e => !used e) = none := by
      rw [List.find?_eq_none]
      intro e he
      simp [hall e he]
    rw [this]

/-- C8 witness: the round trip at a concrete 12-digit base, and the
exhaustion case at a table where every candidate collides. -/
theorem C8_ean13_check_and_retry_witness :
    ((generate_ean13 [4, 0, 0, 6, 3, 8, 1, 3, 3, 3, 9, 3]).length = 13 ∧
      ean13_check_digit ((generate_ean13 [4, 0, 0, 6, 3, 8, 1, 3, 3, 3, 9, 3]).take 12) =
        (generate_ean13 [4, 0, 0, 6, 3, 8, 1, 3, 3, 3, 9, 3]).getD 12 0) ∧
    populate_product_ean13 [[4, 0, 0, 6, 3, 8, 1, 3, 3, 3, 9, 3]] (fun _ => true) sampleProduct =
      (sampleProduct, false) :=
  ⟨C8_ean13_check_and_retry.1 [4, 0, 0, 6, 3, 8, 1, 3, 3, 3, 9, 3] (by decide),
   C8_ean13_check_and_retry.2.2 [[4, 0, 0, 6, 3, 8, 1, 3, 3, 3, 9, 3]] (fun _ => true)
     sampleProduct (by intro e _; rfl)⟩

/-- C3: bulk adjustment processes its items independently.  The counts
reported in the summary are the lengths of the two result lists and
every item lands in exactly one of them; a failing item (empty
reference, zero quantity, or unresolved reference) contributes its
failure entry and leaves the database state exactly as the remaining
items alone would produce it — it does not prevent later items from
being processed and committed; and a failing item processed last
leaves the state already committed by the earlier items untouched. -/
theorem C3_bulk_items_independent :
    (∀ (s : InvState) (items : List BulkItem) (reason : List Char),
      (bulkAdjustStock_execute s items reason).2.summary_adjusted =
          (bulkAdjustStock_execute s items reason).2.adjusted.length ∧
        (bulkAdjustStock_execute s items reason).2.summary_not_found =
          (bulkAdjustStock_execute s items reason).2.not_found.length ∧
        (bulkAdjustStock_execute s items reason).2.adjusted.length +
            (bulkAdjustStock_execute s items reason).2.not_found.length = items.length) ∧
    (∀ (s : InvState) (item : BulkItem) (items : List BulkItem) (reason : List Char),
      itemFails s.products item = true →
      (bulkAdjustStock_execute s (item :: items) reason).1 =
          (bulkAdjustStock_execute s items reason).1 ∧
        (bulkAdjustStock_execute s (item :: items) reason).2.adjusted =
          (bulkAdjustStock_execute s items reason).2.adjusted ∧
        (bulkAdjustStock_execute s (item :: items) reason).2.not_found =
          failEntry s.products item :: (bulkAdjustStock_execute s items reason).2.not_found) ∧
    (∀ (s : InvState) (items : List BulkItem) (item : BulkItem) (reason : List Char),
      itemFails ((bulkAdjustStock_execute s items reason).1).products item = true →
      (bulkAdjustStock_execute s (items ++ [item]) reason).1 =
        (bulkAdjustStock_execute s items reason).1) := by
  refine ⟨?_, ?_, ?_⟩
  · intro s items reason
    exact ⟨rfl, rfl, bulk_count reason items s⟩
  · intro s item items reason hfail
    unfold bulkAdjustStock_execute
    rw [List.foldl_cons, bulkStep_fail _ _ _ _ _ hfail,
        bulk_foldl_acc reason items s [] ([] ++ [failEntry s.products item])]
    simp
  · intro s items item reason hfail
    have hfail' :
        itemFails ((items.foldl (bulkStep reason) (s, [], [])).1).products item = true := hfail
    unfold bulkAdjustStock_execute
    rw [List.foldl_append, List.foldl_cons, List.foldl_nil]
    have heq : items.foldl (bulkStep reason) (s, [], []) =
        ((items.foldl (bulkStep reason) (s, [], [])).1,
         (items.foldl (bulkStep reason) (s, [], [])).2.1,
         (items.foldl (bulkStep reason) (s, [], [])).2.2) := rfl
    rw [heq, bulkStep_fail _ _ _ _ _ hfail']

/-- C3 witness: the spec scenario — two resolvable references and one
unresolvable reference processed last yields 2 adjusted entries, 1
not-found entry, the two stock changes committed. -/
theorem C3_bulk_items_independent_witness :
    ((bulkAdjustStock_execute bulkState (bulkItemsGood ++ [badItem])
        "Delivery note 1234".data).2.adjusted.length +
      (bulkAdjustStock_execute bulkState (bulkItemsGood ++ [badItem])
        "Delivery note 1234".data).2.not_found.length =
      (bulkItemsGood ++ [badItem]).length) ∧
    (bulkAdjustStock_execute bulkState (bulkItemsGood ++ [badItem]) "Delivery note 1234".data).1 =
      (bulkAdjustStock_execute bulkState bulkItemsGood "Delivery note 1234".data).1 :=
  ⟨(C3_bulk_items_independent.1 bulkState (bulkItemsGood ++ [badItem])
      "Delivery note 1234".data).2.2,
   C3_bulk_items_independent.2.2 bulkState bulkItemsGood badItem "Delivery note 1234".data
     (by decide)⟩

/-- C9: the single-item adjustment and the bulk adjustment persist only
the stock column: every other Product column (id, name, SKU, EAN-13,
description, type, price, cost, threshold, categories, active flag) of
every row is unchanged. -/
theorem C9_only_stock_persisted :
    (∀ (s : InvState) (pid : Nat) (qty : Int) (reason : Option (List Char))
        (s' : InvState) (res : AdjustResult),
      adjustStock_execute s pid qty reason = some (s', res) →
      s'.products.map productFrame = s.products.map productFrame) ∧
    (∀ (s : InvState) (items : List BulkItem) (reason : List Char),
      ((bulkAdjustStock_execute s items reason).1).products.map productFrame =
        s.products.map productFrame) := by
  constructor
  · intro s pid qty reason s' res h
    rcases hp : s.products.find? (fun q => q.id == pid) with _ | p
    · rw [adjustStock_execute, hp] at h
      exact absurd h (by simp)
    · rw [adjustStock_execute, hp] at h
      have hs' : s' = { s with
          products := s.products.map
            (fun q => if q.id == pid then { q with stock := q.stock + qty } else q),
          movements := s.movements ++
            [{ product_id := p.id,
               movement_type := if qty > 0 then MovementType.stockIn
                 else MovementType.adjustment,
               quantity := (qty.natAbs : Int),
               reference := reason.getD defaultAdjustReason }] } := by
        have := congrArg (fun o => Option.map Prod.fst o) h
        simpa using this.symm
      rw [hs']
      exact frame_update_stock s.products pid qty
  · intro s items reason
    exact bulk_frame reason items s

/-- C9 witness: the adjustment at a concrete state, with the frame of
every row preserved. -/
theorem C9_only_stock_persisted_witness :
    sampleAdjusted.products.map productFrame = sampleState.products.map productFrame :=
  C9_only_stock_persisted.1 sampleState 1 5 none sampleAdjusted sampleAdjustResult (by decide)

/-- C4 counterexample: a concrete adjustment succeeds, mutates the
stock from 10 to 15 and appends an audit row while the hook-invocation
trace stays empty: no before-change hook is invoked before the
mutation, so no subscriber veto can ever abort it. -/
theorem C4_counterexample_no_hook_invocation :
    ((adjustStock_execute sampleState 1 5 none).map fun x =>
        (x.1.hook_calls, stockOf x.1 1, x.1.movements.length)) =
      some (([] : List HookCall), some 15, 1) := by
  decide

/-- C4 amended: the module defines do_before_stock_change /
do_after_stock_change helpers that dispatch the corresponding hook with
(product, old_quantity, new_quantity, reason, user) and propagate any
subscriber validation failure to their caller (succeeding exactly when
no subscriber vetoes), but neither AdjustStock.execute nor
BulkAdjustStock.execute ever invokes them: both adjustment operations
leave the hook-invocation trace unchanged, so no veto can reach
them. -/
theorem C4_hooks_defined_but_not_invoked :
    (∀ (registry : List HookSubscriber) (product : Product) (oq nq : Int)
        (reason : List Char) (user : Option Nat),
      do_before_stock_change registry product oq nq reason user = Except.ok () ↔
        ∀ f ∈ registry, f (beforeStockChangeCall product oq nq reason user) = none) ∧
    (∀ (registry : List HookSubscriber) (product : Product) (oq nq : Int)
        (reason : List Char) (user : Option Nat),
      do_after_stock_change registry product oq nq reason user = Except.ok () ↔
        ∀ f ∈ registry, f (afterStockChangeCall product oq nq reason user) = none) ∧
    (∀ (s : InvState) (pid : Nat) (qty : Int) (reason : Option (List Char))
        (s' : InvState) (res : AdjustResult),
      adjustStock_execute s pid qty reason = some (s', res) →
      s'.hook_calls = s.hook_calls) ∧
    (∀ (s : InvState) (items : List BulkItem) (reason : List Char),
      ((bulkAdjustStock_execute s items reason).1).hook_calls = s.hook_calls) := by
  refine ⟨?_, ?_, ?_, ?_⟩
  · intro registry product oq nq reason user
    exact do_action_ok_iff registry (beforeStockChangeCall product oq nq reason user)
  · intro registry product oq nq reason user
    exact do_action_ok_iff registry (afterStockChangeCall product oq nq reason user)
  · intro s pid qty reason s' res h
    rcases hp : s.products.find? (fun q => q.id == pid) with _ | p
    · rw [adjustStock_execute, hp] at h
      exact absurd h (by simp)
    · rw [adjustStock_execute, hp] at h
      have := congrArg (fun o => Option.map (fun x => (Prod.fst x).hook_calls) o) h
      simpa using this.symm
  · intro s items reason
    exact bulk_hook_calls reason items s

/-- C4 witness: the before and after hook dispatch at a concrete
vetoing registry (the veto propagates, dispatch does not succeed), a
concrete single adjustment leaving the hook trace unchanged, and a
concrete bulk adjustment leaving the hook trace unchanged. -/
theorem C4_hooks_defined_but_not_invoked_witness :
    (do_before_stock_change [fun _ => some "veto".data] sampleProduct 10 15
        "adjustment".data none = Except.ok () ↔
      ∀ f ∈ [fun (_ : HookCall) => some "veto".data],
        f (beforeStockChangeCall sampleProduct 10 15 "adjustment".data none) = none) ∧
    (do_after_stock_change [fun _ => some "veto".data] sampleProduct 10 15
        "adjustment".data none = Except.ok () ↔
      ∀ f ∈ [fun (_ : HookCall) => some "veto".data],
        f (afterStockChangeCall sampleProduct 10 15 "adjustment".data none) = none) ∧
    sampleAdjusted.hook_calls = sampleState.hook_calls ∧
    ((bulkAdjustStock_execute bulkState bulkItemsGood
        "Delivery note 1234".data).1).hook_calls = bulkState.hook_calls :=
  ⟨C4_hooks_defined_but_not_invoked.1 [fun _ => some "veto".data] sampleProduct 10 15
      "adjustment".data none,
   C4_hooks_defined_but_not_invoked.2.1 [fun _ => some "veto".data] sampleProduct 10 15
      "adjustment".data none,
   C4_hooks_defined_but_not_invoked.2.2.1 sampleState 1 5 none sampleAdjusted
     sampleAdjustResult (by decide),
   C4_hooks_defined_but_not_invoked.2.2.2 bulkState bulkItemsGood "Delivery note 1234".data⟩

end Inventory
